import Mathlib

/-!
Verification of the generation-job orchestration subsystem of the
fullstack-bot repository, as a shallow embedding in Lean.

Embedded source files:
* `src/services/creditService.js` — cost estimator and ledger operations
  (`estimateGenerationCost`, `deductCredits`, `addCredits`);
* `src/services/queueService.js` — broker connection state, queue
  definitions, `enqueue`, and the retry/dead-letter decision inside
  `consume`;
* `src/controllers/generationController.js` — `createGenerationRequest`
  and `cancelGeneration`.

JavaScript numbers are modelled by exact rationals (`ℚ`) where fractional
multipliers occur and by `Int`/`Nat` elsewhere; the JS `x || d` defaulting
idiom (which replaces both `undefined` and `0` by `d`) is modelled by
`jsOrNat`/`jsOrRat`; fallible operations return `Except`; database rows
are lists of structures, and each controller is a pure function from a
request and a server state to a response and a new server state.
-/

/-- JS `x || d` on an optional number: `undefined` and `0` both give `d`. -/
def jsOrNat (v : Option Nat) (d : Nat) : Nat :=
  match v with
  | none => d
  | some n => if n = 0 then d else n

/-- JS `x || d` on an optional rational: `undefined` and `0` both give `d`. -/
def jsOrRat (v : Option ℚ) (d : ℚ) : ℚ :=
  match v with
  | none => d
  | some q => if q = 0 then d else q

/-- Prompt parameters used by the cost estimator
(`creditService.js`, `estimateGenerationCost`). -/
structure PromptData where
  wordCount : Option ℚ
  model : Option String
  seoOptimize : Bool
deriving Repr, DecidableEq

/-- Content-type multipliers from `estimateGenerationCost`
(`typeMultipliers[contentType] || 1`; every listed multiplier is nonzero,
so the JS `||` fallback fires exactly on unknown keys). -/
def typeMultiplier (contentType : String) : ℚ :=
  if contentType = "blog" then 1
  else if contentType = "product" then 4/5
  else if contentType = "social" then 1/2
  else if contentType = "email" then 7/10
  else if contentType = "custom" then 6/5
  else 1

/-- Model multipliers from `estimateGenerationCost`
(`modelMultipliers[promptData.model] || modelMultipliers.default`). -/
def modelMultiplier (model : Option String) : ℚ :=
  match model with
  | some m =>
    if m = "gpt-4" then 3/2
    else if m = "gpt-3.5-turbo" then 1
    else if m = "default" then 1
    else 1
  | none => 1

/-- `CreditService.estimateGenerationCost` from `creditService.js`:
`Math.max(Math.ceil(wordCount * typeMult * modelMult * seoMult), 100)`
with `wordCount = promptData.wordCount || 1000`. -/
def estimateGenerationCost (promptData : PromptData) (contentType : String) : Int :=
  let requestedWordCount := jsOrRat promptData.wordCount 1000
  let multiplier := typeMultiplier contentType
  let modelMult := modelMultiplier promptData.model
  let seoMultiplier : ℚ := if promptData.seoOptimize then 6/5 else 1
  max (Int.ceil (requestedWordCount * multiplier * modelMult * seoMultiplier)) 100

/-- Content-type multiplier table as the claim states it: a lookup table
with unknown types mapping to 1. -/
def specTypeMultiplier (contentType : String) : ℚ :=
  (([("blog", (1 : ℚ)), ("product", 4/5), ("social", 1/2),
     ("email", 7/10), ("custom", 6/5)]).lookup contentType).getD 1

/-- Model multiplier table as the claim states it: a lookup table with
unknown (or absent) models mapping to 1. -/
def specModelMultiplier (model : Option String) : ℚ :=
  (([("gpt-4", (3/2 : ℚ)), ("gpt-3.5-turbo", 1),
     ("default", 1)]).lookup (model.getD "default")).getD 1

/-- The cost estimator as the claim describes it: the ceiling of the
requested word count (default 1000) times the content-type multiplier,
the model multiplier and an SEO multiplier of 1.2 when set, floored at a
minimum of 100 credits. -/
def estimateGenerationCostSpec (promptData : PromptData) (contentType : String) : Int :=
  let words := jsOrRat promptData.wordCount 1000
  let seo : ℚ := if promptData.seoOptimize then 12/10 else 1
  max 100 (Int.ceil (words * specTypeMultiplier contentType *
    specModelMultiplier promptData.model * seo))

/-- A row of the `CreditAccounts` table (the fields touched by the
embedded code paths). -/
structure CreditAccount where
  userId : Nat
  creditsRemaining : Int
  creditsUsed : Int
deriving Repr, DecidableEq

/-- A row of the `ContentItems` table (fields used by the embedded code). -/
structure ContentItem where
  id : Nat
  userId : Nat
  title : String
  contentType : String
  status : String
deriving Repr, DecidableEq

/-- A row of the `Templates` table (fields used by the template lookup in
`createGenerationRequest`). -/
structure Template where
  id : Nat
  userId : Nat
  isPublic : Bool
  isSystem : Bool
deriving Repr, DecidableEq

/-- A row of the `ContentGenerations` table; `status` ranges over the
model enum `('queued', 'processing', 'completed', 'failed')`. -/
structure Generation where
  id : Nat
  userId : Nat
  contentItemId : Nat
  status : String
  estimatedCredits : Int
  creditsUsed : Int
  error : Option String
deriving Repr, DecidableEq

/-- The payload `createGenerationRequest` publishes to the
`content-generation` queue. -/
structure QueueMessage where
  generationId : Nat
  userId : Nat
  contentItemId : Nat
deriving Repr, DecidableEq

/-- Connection and queue state of `QueueService` (`queueService.js`):
`connected`, the set of asserted queues, the log of messages sent with
`sendToQueue`, and the per-queue dead-letter destinations reached through
`nack(msg, false, false)`. -/
structure BrokerState where
  connected : Bool
  queues : List String
  published : List (String × QueueMessage)
  deadLetters : List (String × QueueMessage)
deriving Repr, DecidableEq

/-- The server-side state read and written by the embedded controllers. -/
structure ServerState where
  creditAccounts : List CreditAccount
  contentItems : List ContentItem
  templates : List Template
  generations : List Generation
  broker : BrokerState
deriving Repr, DecidableEq

/-- Errors thrown by `QueueService`: a failed `connect` (broker
unavailable) or `enqueue` on an unasserted queue
(`Queue <name> is not defined`). -/
inductive QueueError where
  | brokerUnavailable
  | queueNotDefined (name : String)
deriving Repr, DecidableEq

/-- The keys of `QueueService.queueDefinitions` (`queueService.js`
constructor): the only queues `setupQueues` ever asserts. -/
def queueDefinitions : List String :=
  ["content-generation", "content-publishing", "notification"]

/-- The queue name `scheduleContent` (`contentController.js`) passes to
`queueService.enqueue`; it does not occur in `queueDefinitions`. -/
def schedulingQueueName : String := "content-scheduling"

/-- `QueueService.ensureConnection`: a no-op when connected; otherwise
`connect`, which on success runs `setupQueues` (asserting exactly the
queues of `queueDefinitions`) and on failure throws. -/
def ensureConnection (brokerUp : Bool) (b : BrokerState) : Except QueueError BrokerState :=
  if b.connected then .ok b
  else if brokerUp then .ok { b with connected := true, queues := queueDefinitions }
  else .error .brokerUnavailable

/-- `QueueService.enqueue`: ensure the connection, throw
`Queue <name> is not defined` when the queue was never asserted, else
`sendToQueue`. -/
def enqueue (brokerUp : Bool) (b : BrokerState) (queue : String) (message : QueueMessage) :
    Except QueueError BrokerState :=
  match ensureConnection brokerUp b with
  | .error e => .error e
  | .ok b1 =>
    if queue ∈ b1.queues then
      .ok { b1 with published := b1.published ++ [(queue, message)] }
    else
      .error (.queueNotDefined queue)

/-- The request body of `POST /api/generation`
(`createGenerationRequest`), after express defaulting:
`contentType = 'blog'` and `isNewContent = true` are destructuring
defaults, modelled by `Option`/the caller. `valid` stands for the
express-validator outcome. -/
structure GenRequest where
  valid : Bool
  title : Option String
  contentType : Option String
  templateId : Option Nat
  promptData : PromptData
  aiProvider : Option String
  isNewContent : Bool
  contentItemId : Option Nat
deriving Repr, DecidableEq

/-- `CreditAccount.findOne({ where: { userId } })`. -/
def findAccount (accounts : List CreditAccount) (userId : Nat) : Option CreditAccount :=
  accounts.find? (fun a => a.userId == userId)

/-- `creditAccount.save()`: write the mutated row back by primary key. -/
def updateAccount (accounts : List CreditAccount) (acct : CreditAccount) :
    List CreditAccount :=
  accounts.map (fun a => if a.userId == acct.userId then acct else a)

/-- `ContentItem.findOne({ where: { id: contentItemId, userId } })`. -/
def lookupContentItem (s : ServerState) (userId : Nat) (contentItemId : Option Nat) :
    Option ContentItem :=
  s.contentItems.find? (fun ci => (some ci.id == contentItemId) && (ci.userId == userId))

/-- `Template.findOne` with the `$or` of ownership, `isPublic`, `isSystem`. -/
def lookupTemplate (s : ServerState) (userId : Nat) (templateId : Nat) : Option Template :=
  s.templates.find? (fun t => (t.id == templateId) &&
    (t.userId == userId || t.isPublic || t.isSystem))

/-- The `contentItem` variable of `createGenerationRequest` after the
update-existing-content lookup: populated only when
`!isNewContent && contentItemId`. -/
def foundContentItem (s : ServerState) (userId : Nat) (req : GenRequest) :
    Option ContentItem :=
  if !req.isNewContent && req.contentItemId.isSome then
    lookupContentItem s userId req.contentItemId
  else none

/-- The `template` variable of `createGenerationRequest` after the
template lookup. -/
def foundTemplate (s : ServerState) (userId : Nat) (req : GenRequest) : Option Template :=
  match req.templateId with
  | some tid => lookupTemplate s userId tid
  | none => none

/-- The `contentItem` in scope when `ContentGeneration.create` runs:
either the freshly created item (`isNewContent`) or the looked-up one.
`none` here means the JS dereference `contentItem.id` throws a
`TypeError` (reaching the catch-all) before any record is written. -/
def contentItemForCreate (s : ServerState) (userId : Nat) (req : GenRequest)
    (freshItemId : Nat) : Option ContentItem :=
  if req.isNewContent then
    some { id := freshItemId, userId := userId,
           title := req.title.getD "Untitled Content",
           contentType := req.contentType.getD "blog", status := "draft" }
  else foundContentItem s userId req

/-- HTTP responses of `createGenerationRequest`: 400 validation, 404
lookups, 402 `InsufficientCredits`, 500 via `next(error)` (the catch-all,
reached e.g. when `queueService.enqueue` throws), and 202 accepted. -/
inductive GenResponse where
  | badRequest
  | notFound (what : String)
  | paymentRequired (required available : Int)
  | internalError
  | accepted (generationId contentItemId : Nat) (estimatedCost : Int)
deriving Repr, DecidableEq

/-- `exports.createGenerationRequest` from `generationController.js`,
step for step: validate; optional content-item and template lookups (404
on miss); credit-account lookup (404 on miss); estimate cost; 402 when
`creditsRemaining < estimatedCost`; create the content item (when new);
create the `ContentGeneration` row with status `queued`; deduct the
estimated cost from `creditsRemaining` (the reservation); enqueue to
`content-generation`; 202. A throw from `enqueue` reaches the catch-all:
the error is passed to `next` with every earlier write kept. -/
def createGenerationRequest (brokerUp : Bool) (freshItemId freshGenId : Nat)
    (userId : Nat) (req : GenRequest) (s : ServerState) : GenResponse × ServerState :=
  if !req.valid then (.badRequest, s)
  else if (!req.isNewContent && req.contentItemId.isSome) &&
      (foundContentItem s userId req).isNone then
    (.notFound "Content item not found or access denied", s)
  else if req.templateId.isSome && (foundTemplate s userId req).isNone then
    (.notFound "Template not found or access denied", s)
  else
    match findAccount s.creditAccounts userId with
    | none => (.notFound "Credit account not found", s)
    | some creditAccount =>
      let contentType := req.contentType.getD "blog"
      let estimatedCost := estimateGenerationCost req.promptData contentType
      if creditAccount.creditsRemaining < estimatedCost then
        (.paymentRequired estimatedCost creditAccount.creditsRemaining, s)
      else
        match contentItemForCreate s userId req freshItemId with
        | none => (.internalError, s)
        | some contentItem =>
          let s1 := { s with contentItems :=
            if req.isNewContent then s.contentItems ++ [contentItem]
            else s.contentItems }
          let generation : Generation :=
            { id := freshGenId, userId := userId, contentItemId := contentItem.id,
              status := "queued", estimatedCredits := estimatedCost,
              creditsUsed := 0, error := none }
          let s2 := { s1 with generations := s1.generations ++ [generation] }
          let acct' := { creditAccount with
            creditsRemaining := creditAccount.creditsRemaining - estimatedCost }
          let s3 := { s2 with creditAccounts := updateAccount s2.creditAccounts acct' }
          let message : QueueMessage :=
            { generationId := freshGenId, userId := userId,
              contentItemId := contentItem.id }
          match enqueue brokerUp s3.broker "content-generation" message with
          | .error _ => (.internalError, s3)
          | .ok b' => (.accepted freshGenId contentItem.id estimatedCost,
              { s3 with broker := b' })

/-- HTTP responses of `cancelGeneration`: 404, 400
(`Cannot cancel generation that is already processing or completed`,
the `NotCancellable` rejection), and 200 with the refunded amount. -/
inductive CancelResponse where
  | notFound
  | notCancellable
  | ok (generationId : Nat) (creditsRefunded : Int)
deriving Repr, DecidableEq

/-- `generation.save()` after mutation: write the row back by primary key. -/
def updateGeneration (gens : List Generation) (g : Generation) : List Generation :=
  gens.map (fun x => if x.id == g.id then g else x)

/-- Best-effort effect of `queueService.removeFromQueue
('content-generation', id)` as called from `cancelGeneration`: the
matching message, if still queued, is dropped; a failure is swallowed by
the surrounding try/catch. -/
def removeFromPublished (published : List (String × QueueMessage)) (generationId : Nat) :
    List (String × QueueMessage) :=
  published.filter (fun p =>
    !((p.1 == "content-generation") && (p.2.generationId == generationId)))

/-- `exports.cancelGeneration` from `generationController.js`: find the
generation by id and owner (404 on miss); reject with 400 unless status
is `queued`; set status to `failed` with error `Cancelled by user`; add
`estimatedCredits` back to `creditsRemaining` when the credit account
exists; best-effort remove the message from the queue; respond 200 with
`creditsRefunded = estimatedCredits`. -/
def cancelGeneration (genId userId : Nat) (s : ServerState) :
    CancelResponse × ServerState :=
  match s.generations.find? (fun g => (g.id == genId) && (g.userId == userId)) with
  | none => (.notFound, s)
  | some generation =>
    if generation.status != "queued" then (.notCancellable, s)
    else
      let generation' := { generation with
        status := "failed", error := some "Cancelled by user" }
      let s1 := { s with generations := updateGeneration s.generations generation' }
      let s2 :=
        match findAccount s1.creditAccounts userId with
        | some creditAccount =>
          let acct' := { creditAccount with
            creditsRemaining := creditAccount.creditsRemaining + generation.estimatedCredits }
          { s1 with creditAccounts := updateAccount s1.creditAccounts acct' }
        | none => s1
      let s3 := { s2 with broker := { s2.broker with
        published := removeFromPublished s2.broker.published genId } }
      (.ok genId generation.estimatedCredits, s3)

/-- The spec's error taxonomy for failed generation deliveries. The
embedded `consume` has this value in scope (its `catch (error)`) but
never inspects it. -/
inductive ErrorKind where
  | transient
  | permanent
deriving Repr, DecidableEq

/-- Outcome of the retry logic in `QueueService.consume`. -/
inductive RetryDecision where
  | retry (delayMs : Nat)
  | deadLetter
deriving Repr, DecidableEq

/-- The retry decision inside the catch of `QueueService.consume`
(`queueService.js` lines 207-249): with
`retryCount = headers['x-retry-count'] || 0`, requeue with delay
`(options.retryDelay || 5000) * 2 ** retryCount` while
`retryCount < (options.maxRetries || 3)`, else `nack(msg, false, false)`
to the dead-letter queue. The caught `error` is never inspected. -/
def consumeRetryDecision (error : ErrorKind) (retryCount : Nat)
    (maxRetries : Option Nat) (retryDelay : Option Nat) : RetryDecision :=
  if retryCount < jsOrNat maxRetries 3 then
    .retry (jsOrNat retryDelay 5000 * 2 ^ retryCount)
  else
    .deadLetter

/-- The header value the retry branch of `consume` republishes with:
`'x-retry-count': retryCount + 1`. -/
def nextRetryCount (retryCount : Nat) : Nat := retryCount + 1

/-- State effect of the exhausted branch of `QueueService.consume`
(lines 240-249): `nack(msg, false, false)` routes the message to the
queue's dead-letter destination; no generation row and no credit account
is touched. -/
def deadLetterExhausted (queue : String) (message : QueueMessage) (s : ServerState) :
    ServerState :=
  { s with broker := { s.broker with
      deadLetters := s.broker.deadLetters ++ [(queue, message)] } }

/-- The four balance-mutating operations of the embedded code:
reservation at submission (`createGenerationRequest`), deduction
(`CreditService.deductCredits`), refund on cancel (`cancelGeneration`)
and addition (`CreditService.addCredits`). -/
inductive LedgerOp where
  | reserve (amount : Int)
  | deduct (amount : Int)
  | refund (amount : Int)
  | add (amount : Int)
deriving Repr, DecidableEq

/-- The amount carried by a ledger operation. -/
def LedgerOp.amount : LedgerOp → Int
  | .reserve a => a
  | .deduct a => a
  | .refund a => a
  | .add a => a

/-- Effect of one ledger operation on `creditsRemaining`. `reserve` is
guarded by `creditsRemaining < estimatedCost` (402, no write) in
`createGenerationRequest`; `deduct` is guarded by
`creditsRemaining < credits` (throw, no write) in
`CreditService.deductCredits`; `refund` (`cancelGeneration`) and `add`
(`CreditService.addCredits`) are unconditional additions. -/
def applyLedgerOp (creditsRemaining : Int) (op : LedgerOp) : Int :=
  match op with
  | .reserve a => if creditsRemaining < a then creditsRemaining else creditsRemaining - a
  | .deduct a => if creditsRemaining < a then creditsRemaining else creditsRemaining - a
  | .refund a => creditsRemaining + a
  | .add a => creditsRemaining + a

/-- A sequential run of ledger operations. -/
def runLedger (creditsRemaining : Int) (ops : List LedgerOp) : Int :=
  ops.foldl applyLedgerOp creditsRemaining

/-- Connection state of a `QueueService` singleton before `connect` ever ran. -/
def brokerInit : BrokerState :=
  { connected := false, queues := [], published := [], deadLetters := [] }

/-- A user (id 7) holding 1000 credits, the default for a new registration. -/
def acct0 : CreditAccount := { userId := 7, creditsRemaining := 1000, creditsUsed := 0 }

/-- Initial server state: one funded account, no content, broker disconnected. -/
def state0 : ServerState :=
  { creditAccounts := [acct0], contentItems := [], templates := [],
    generations := [], broker := brokerInit }

/-- A default prompt: no word count, no model, no SEO optimization. -/
def pd0 : PromptData := { wordCount := none, model := none, seoOptimize := false }

/-- A minimal valid new-content submission with all defaults. -/
def req0 : GenRequest :=
  { valid := true, title := none, contentType := none, templateId := none,
    promptData := pd0, aiProvider := none, isNewContent := true, contentItemId := none }

/-- A user holding 700 credits after a 300-credit reservation. -/
def acct1 : CreditAccount := { userId := 7, creditsRemaining := 700, creditsUsed := 0 }

/-- A queued generation with a 300-credit reservation. -/
def gen5 : Generation :=
  { id := 5, userId := 7, contentItemId := 3, status := "queued",
    estimatedCredits := 300, creditsUsed := 0, error := none }

/-- Server state holding one queued generation awaiting cancellation. -/
def state1 : ServerState :=
  { creditAccounts := [acct1], contentItems := [], templates := [],
    generations := [gen5], broker := brokerInit }

/-- A user holding only 50 credits. -/
def acctLow : CreditAccount := { userId := 7, creditsRemaining := 50, creditsUsed := 0 }

/-- Server state whose account cannot cover a default submission. -/
def stateLow : ServerState :=
  { creditAccounts := [acctLow], contentItems := [], templates := [],
    generations := [], broker := brokerInit }

/-- The server state produced by a successful default submission from `state0`
(content item 1, generation 2, 1000 credits reserved, message published). -/
def state0AfterSubmit : ServerState :=
  { creditAccounts := [{ userId := 7, creditsRemaining := 0, creditsUsed := 0 }],
    contentItems := [{ id := 1, userId := 7, title := "Untitled Content",
                       contentType := "blog", status := "draft" }],
    templates := [],
    generations := [{ id := 2, userId := 7, contentItemId := 1, status := "queued",
                      estimatedCredits := 1000, creditsUsed := 0, error := none }],
    broker := { connected := true, queues := queueDefinitions,
                published := [("content-generation",
                  { generationId := 2, userId := 7, contentItemId := 1 })],
                deadLetters := [] } }

/-- The content item created by the default submission. -/
def item0 : ContentItem :=
  { id := 1, userId := 7, title := "Untitled Content", contentType := "blog",
    status := "draft" }

/-- A broker that has connected and asserted its queues. -/
def connectedBroker : BrokerState :=
  { connected := true, queues := queueDefinitions, published := [], deadLetters := [] }

/-- An arbitrary queue payload. -/
def msg0 : QueueMessage := { generationId := 9, userId := 7, contentItemId := 1 }

/-- Account returned by `findAccount` carries the queried user id. -/
lemma findAccount_userId {accounts : List CreditAccount} {uid : Nat} {acct : CreditAccount}
    (h : findAccount accounts uid = some acct) : acct.userId = uid := by
  simpa using List.find?_some h

/-- Writing back a row for the found user makes the next lookup return it. -/
lemma findAccount_update {accounts : List CreditAccount} {uid : Nat} {acct : CreditAccount}
    (acct' : CreditAccount) (h : findAccount accounts uid = some acct)
    (hu : acct'.userId = uid) :
    findAccount (updateAccount accounts acct') uid = some acct' := by
  induction accounts with
  | nil => simp [findAccount] at h
  | cons a rest ih =>
    simp only [findAccount, updateAccount, List.map_cons] at *
    by_cases ha : a.userId = uid
    · have hhead : (if a.userId == acct'.userId then acct' else a) = acct' := by
        simp [ha, hu]
      rw [hhead, List.find?_cons_of_pos _ (by simp [hu])]
    · have hhead : (if a.userId == acct'.userId then acct' else a) = a := by
        simp [hu, ha]
      rw [hhead, List.find?_cons_of_neg _ (by simp [ha])]
      rw [List.find?_cons_of_neg _ (by simp [ha])] at h
      exact ih h

/-- Inversion of an accepted submission: the 202 path fixes the generation id,
the estimated cost, the reservation on the credit account, and the appended
`queued` generation row. -/
lemma createGenerationRequest_accepted (brokerUp : Bool) (fi fg uid : Nat)
    (req : GenRequest) (s s' : ServerState) (gid cid : Nat) (est : Int)
    (h : createGenerationRequest brokerUp fi fg uid req s = (.accepted gid cid est, s')) :
    gid = fg ∧ est = estimateGenerationCost req.promptData (req.contentType.getD "blog") ∧
    ∃ acct ci, findAccount s.creditAccounts uid = some acct ∧
      contentItemForCreate s uid req fi = some ci ∧ cid = ci.id ∧
      est ≤ acct.creditsRemaining ∧
      s'.creditAccounts = updateAccount s.creditAccounts
        { acct with creditsRemaining := acct.creditsRemaining - est } ∧
      s'.generations = s.generations ++
        [{ id := fg, userId := uid, contentItemId := ci.id, status := "queued",
           estimatedCredits := est, creditsUsed := 0, error := none }] := by
  simp only [createGenerationRequest] at h
  split at h
  · simp [Prod.ext_iff] at h
  · split at h
    · simp [Prod.ext_iff] at h
    · split at h
      · simp [Prod.ext_iff] at h
      · split at h
        · simp [Prod.ext_iff] at h
        · rename_i creditAccount hacct
          split at h
          · simp [Prod.ext_iff] at h
          · rename_i hcredit
            split at h
            · simp [Prod.ext_iff] at h
            · rename_i contentItem hci
              split at h
              · simp [Prod.ext_iff] at h
              · rename_i b' henq
                rw [Prod.mk.injEq] at h
                obtain ⟨h1, h2⟩ := h
                injection h1 with e1 e2 e3
                subst e1; subst e2; subst e3; subst h2
                exact ⟨rfl, rfl, creditAccount, contentItem, hacct, hci, rfl,
                  by omega, rfl, rfl⟩

/-- Minimum-cost floor of the estimator. -/
lemma est_min (pd : PromptData) (ct : String) : 100 ≤ estimateGenerationCost pd ct :=
  le_max_right _ _

/-- Lookup-table form and if-chain form of the content-type multipliers agree. -/
lemma typeMultiplier_eq_spec (ct : String) : specTypeMultiplier ct = typeMultiplier ct := by
  by_cases h1 : ct = "blog" <;> by_cases h2 : ct = "product" <;>
    by_cases h3 : ct = "social" <;> by_cases h4 : ct = "email" <;>
    by_cases h5 : ct = "custom" <;>
  simp_all [specTypeMultiplier, typeMultiplier, List.lookup, beq_eq_decide]

/-- Lookup-table form and if-chain form of the model multipliers agree. -/
lemma modelMultiplier_eq_spec (m : Option String) :
    specModelMultiplier m = modelMultiplier m := by
  cases m with
  | none => rfl
  | some v =>
    by_cases h1 : v = "gpt-4" <;> by_cases h2 : v = "gpt-3.5-turbo" <;>
      by_cases h3 : v = "default" <;>
    simp_all [specModelMultiplier, modelMultiplier, List.lookup, beq_eq_decide]

/-- Cancellation of a non-queued generation is rejected with the 400 response
and leaves the state unchanged. -/
lemma cancelGeneration_notQueued (genId uid : Nat) (s : ServerState) (g : Generation)
    (hfind : s.generations.find? (fun x => (x.id == genId) && (x.userId == uid)) = some g)
    (hq : g.status ≠ "queued") :
    cancelGeneration genId uid s = (.notCancellable, s) := by
  have hne : (g.status != "queued") = true := by simpa using hq
  simp [cancelGeneration, hfind, hne]

/-- Cancellation of a queued generation refunds `estimatedCredits` and records
status `failed` with error `Cancelled by user`. -/
lemma cancelGeneration_queued (genId uid : Nat) (s : ServerState) (g : Generation)
    (acct : CreditAccount)
    (hfind : s.generations.find? (fun x => (x.id == genId) && (x.userId == uid)) = some g)
    (hq : g.status = "queued")
    (hacct : findAccount s.creditAccounts uid = some acct) :
    ∃ s', cancelGeneration genId uid s = (.ok genId g.estimatedCredits, s') ∧
      findAccount s'.creditAccounts uid =
        some { acct with creditsRemaining := acct.creditsRemaining + g.estimatedCredits } ∧
      s'.generations = updateGeneration s.generations
        { g with status := "failed", error := some "Cancelled by user" } := by
  have hne : (g.status != "queued") = false := by simp [hq]
  refine ⟨(cancelGeneration genId uid s).2, ?_, ?_, ?_⟩
  · have h1 : (cancelGeneration genId uid s).1 = .ok genId g.estimatedCredits := by
      simp [cancelGeneration, hfind, hne]
    exact Prod.ext h1 rfl
  · have h2 : (cancelGeneration genId uid s).2.creditAccounts =
        updateAccount s.creditAccounts
          { acct with creditsRemaining := acct.creditsRemaining + g.estimatedCredits } := by
      simp [cancelGeneration, hfind, hne, hacct]
    rw [h2]
    exact findAccount_update
      { acct with creditsRemaining := acct.creditsRemaining + g.estimatedCredits }
      hacct (@findAccount_userId s.creditAccounts uid acct hacct)
  · simp [cancelGeneration, hfind, hne, hacct]

/-- Estimated cost of the default submission. -/
lemma est_req0 : estimateGenerationCost req0.promptData (req0.contentType.getD "blog") = 1000 := by
  simp [req0, pd0, estimateGenerationCost, jsOrRat, typeMultiplier, modelMultiplier]

/-- Concrete evaluation of the default submission against a reachable broker. -/
lemma run0 : createGenerationRequest true 1 2 7 req0 state0 =
    (.accepted 2 1 1000, state0AfterSubmit) := by
  simp [createGenerationRequest, est_req0, req0, state0, pd0, acct0, brokerInit,
    state0AfterSubmit, foundContentItem, foundTemplate, findAccount, updateAccount,
    contentItemForCreate, enqueue, ensureConnection, queueDefinitions,
    estimateGenerationCost, jsOrRat, typeMultiplier, modelMultiplier]

/-- Claim C1 (amended): when the enqueue to the broker fails after credits have
been reserved, `createGenerationRequest` surfaces an internal error with no
rollback: the generation row stays `queued` (never dead-lettered), the
reservation is not refunded, nothing is published, and the balance remains the
pre-submission value minus the estimated cost (at least 100), so the reserved
credits are stranded. -/
theorem enqueue_failure_strands_reservation (fi fg uid : Nat)
    (req : GenRequest) (s : ServerState) (acct : CreditAccount) (ci : ContentItem)
    (hvalid : req.valid = true)
    (hitem : ((!req.isNewContent && req.contentItemId.isSome) &&
      (foundContentItem s uid req).isNone) = false)
    (htpl : (req.templateId.isSome && (foundTemplate s uid req).isNone) = false)
    (hacct : findAccount s.creditAccounts uid = some acct)
    (hcredit : ¬ acct.creditsRemaining <
      estimateGenerationCost req.promptData (req.contentType.getD "blog"))
    (hci : contentItemForCreate s uid req fi = some ci)
    (hdown : s.broker.connected = false) :
    ∃ s', createGenerationRequest false fi fg uid req s = (.internalError, s') ∧
      findAccount s'.creditAccounts uid = some { acct with creditsRemaining :=
        (acct.creditsRemaining -
          estimateGenerationCost req.promptData (req.contentType.getD "blog")) } ∧
      s'.generations = s.generations ++
        [{ id := fg, userId := uid, contentItemId := ci.id, status := "queued",
           estimatedCredits :=
             (estimateGenerationCost req.promptData (req.contentType.getD "blog")),
           creditsUsed := 0, error := none }] ∧
      s'.broker.published = s.broker.published ∧
      100 ≤ estimateGenerationCost req.promptData (req.contentType.getD "blog") := by
  have henq : ∀ m : QueueMessage,
      enqueue false s.broker "content-generation" m = .error .brokerUnavailable := by
    intro m
    simp [enqueue, ensureConnection, hdown]
  refine ⟨(createGenerationRequest false fi fg uid req s).2, ?_, ?_, ?_, ?_,
    est_min _ _⟩
  · have h1 : (createGenerationRequest false fi fg uid req s).1 = .internalError := by
      simp [createGenerationRequest, hvalid, hitem, htpl, hacct, hcredit, hci, henq]
    exact Prod.ext h1 rfl
  · have h2 : (createGenerationRequest false fi fg uid req s).2.creditAccounts =
        updateAccount s.creditAccounts { acct with creditsRemaining :=
          (acct.creditsRemaining -
            estimateGenerationCost req.promptData (req.contentType.getD "blog")) } := by
      simp [createGenerationRequest, hvalid, hitem, htpl, hacct, hcredit, hci, henq]
    rw [h2]
    exact findAccount_update _ hacct (@findAccount_userId s.creditAccounts uid acct hacct)
  · simp [createGenerationRequest, hvalid, hitem, htpl, hacct, hcredit, hci, henq]
  · simp [createGenerationRequest, hvalid, hitem, htpl, hacct, hcredit, hci, henq]

/-- Claim C1 counterexample: with a 1000-credit account and the broker down, the
default submission reserves 1000 credits, the enqueue throws, and the error is
surfaced with the generation left `queued` and the balance at 0 — not the
pre-submission 1000 the claim requires, and with no dead-letter transition. -/
theorem enqueue_failure_no_rollback_cex :
    findAccount state0.creditAccounts 7 = some acct0 ∧
    acct0.creditsRemaining = 1000 ∧
    (createGenerationRequest false 1 2 7 req0 state0).1 = .internalError ∧
    ((createGenerationRequest false 1 2 7 req0 state0).2.generations.map
      Generation.status) = ["queued"] ∧
    (findAccount (createGenerationRequest false 1 2 7 req0 state0).2.creditAccounts
      7).map CreditAccount.creditsRemaining = some 0 ∧
    (0 : Int) ≠ 1000 ∧ "queued" ≠ "dead-lettered" := by
  refine ⟨by decide, by decide, ?_, ?_, ?_, by decide, by decide⟩ <;>
  simp [createGenerationRequest, est_req0, req0, state0, pd0, acct0, brokerInit,
    foundContentItem, foundTemplate, findAccount, updateAccount, contentItemForCreate,
    enqueue, ensureConnection, queueDefinitions, estimateGenerationCost, jsOrRat,
    typeMultiplier, modelMultiplier]

/-- Claim C1 witness: the amended theorem instantiated at the concrete
broker-down submission. -/
theorem enqueue_failure_strands_reservation_witness :
    ∃ s', createGenerationRequest false 1 2 7 req0 state0 = (.internalError, s') ∧
      findAccount s'.creditAccounts 7 = some { acct0 with creditsRemaining :=
        (acct0.creditsRemaining -
          estimateGenerationCost req0.promptData (req0.contentType.getD "blog")) } ∧
      s'.generations = state0.generations ++
        [{ id := 2, userId := 7, contentItemId := item0.id, status := "queued",
           estimatedCredits :=
             (estimateGenerationCost req0.promptData (req0.contentType.getD "blog")),
           creditsUsed := 0, error := none }] ∧
      s'.broker.published = state0.broker.published ∧
      100 ≤ estimateGenerationCost req0.promptData (req0.contentType.getD "blog") :=
  enqueue_failure_strands_reservation 1 2 7 req0 state0 acct0 item0
    rfl (by decide) (by decide) (by decide) (by simp [est_req0, acct0]) (by decide) rfl

/-- Claim C2 (amended): `cancelGeneration` rejects with the NotCancellable (400)
response unless the generation is `queued`; a queued generation is cancelled with
the full `estimatedCredits` added back to the owner's balance, but its recorded
status becomes `failed` with error `Cancelled by user` — the status enum has no
`cancelled` value. -/
theorem cancel_guard_and_refund (genId uid : Nat) (s : ServerState) (g : Generation)
    (hfind : s.generations.find? (fun x => (x.id == genId) && (x.userId == uid)) = some g) :
    (g.status ≠ "queued" → cancelGeneration genId uid s = (.notCancellable, s)) ∧
    (g.status = "queued" → ∀ acct, findAccount s.creditAccounts uid = some acct →
      ∃ s', cancelGeneration genId uid s = (.ok genId g.estimatedCredits, s') ∧
        findAccount s'.creditAccounts uid = some { acct with
          creditsRemaining := acct.creditsRemaining + g.estimatedCredits } ∧
        s'.generations = updateGeneration s.generations
          { g with status := "failed", error := some "Cancelled by user" }) := by
  refine ⟨fun hq => cancelGeneration_notQueued genId uid s g hfind hq,
    fun hq acct hacct => cancelGeneration_queued genId uid s g acct hfind hq hacct⟩

/-- Claim C2 counterexample: cancelling a queued generation refunds in full but
records status `failed`, not `cancelled`. -/
theorem cancel_sets_failed_not_cancelled_cex :
    (cancelGeneration 5 7 state1).1 = .ok 5 300 ∧
    ((cancelGeneration 5 7 state1).2.generations.map Generation.status) = ["failed"] ∧
    "failed" ≠ "cancelled" ∧
    (findAccount (cancelGeneration 5 7 state1).2.creditAccounts 7).map
      CreditAccount.creditsRemaining = some 1000 := by decide

/-- Claim C2 witness: the amended theorem at the concrete queued generation. -/
theorem cancel_guard_and_refund_witness :
    ∃ s', cancelGeneration 5 7 state1 = (.ok 5 gen5.estimatedCredits, s') ∧
      findAccount s'.creditAccounts 7 = some { acct1 with
        creditsRemaining := acct1.creditsRemaining + gen5.estimatedCredits } ∧
      s'.generations = updateGeneration state1.generations
        { gen5 with status := "failed", error := some "Cancelled by user" } :=
  (cancel_guard_and_refund 5 7 state1 gen5 (by decide)).2 rfl acct1 (by decide)

/-- Claim C3 (amended): a job cancelled while `queued` has net zero credit effect
(the balance returns to its pre-submission value), but a message that exhausts
its retries is routed to the dead-letter queue with no refund and no job update:
the balance stays at the pre-submission value minus the estimated cost, strictly
below the pre-submission value. -/
theorem terminal_states_refund_behaviour (brokerUp : Bool) (fi fg uid : Nat)
    (req : GenRequest) (s s' : ServerState) (gid cid : Nat) (est : Int)
    (acct : CreditAccount)
    (h : createGenerationRequest brokerUp fi fg uid req s = (.accepted gid cid est, s'))
    (hacct : findAccount s.creditAccounts uid = some acct)
    (hfresh : ∀ g ∈ s.generations, g.id ≠ fg) :
    (∃ s'', cancelGeneration gid uid s' = (.ok gid est, s'') ∧
      (findAccount s''.creditAccounts uid).map CreditAccount.creditsRemaining =
        some acct.creditsRemaining) ∧
    (∀ (q : String) (m : QueueMessage),
      (findAccount (deadLetterExhausted q m s').creditAccounts uid).map
        CreditAccount.creditsRemaining = some (acct.creditsRemaining - est) ∧
      (deadLetterExhausted q m s').generations = s'.generations ∧
      acct.creditsRemaining - est ≠ acct.creditsRemaining) := by
  obtain ⟨e1, hest, acct0', ci, hacct0', hci, e2, hle, hca, hgen⟩ :=
    createGenerationRequest_accepted brokerUp fi fg uid req s s' gid cid est h
  subst e1
  rw [hacct0'] at hacct
  injection hacct with hacct_eq
  subst hacct_eq
  have hacct' : findAccount s'.creditAccounts uid =
      some { acct0' with creditsRemaining := acct0'.creditsRemaining - est } := by
    rw [hca]
    exact findAccount_update _ hacct0'
      (@findAccount_userId s.creditAccounts uid acct0' hacct0')
  have hfind : s'.generations.find?
      (fun x => (x.id == gid) && (x.userId == uid)) =
      some { id := gid, userId := uid, contentItemId := ci.id, status := "queued",
             estimatedCredits := est, creditsUsed := 0, error := none } := by
    rw [hgen, List.find?_append]
    have hnone : s.generations.find? (fun x => (x.id == gid) && (x.userId == uid)) =
        none := by
      rw [List.find?_eq_none]
      intro g hg
      simp [hfresh g hg]
    simp [hnone]
  have h100 : 100 ≤ est := by rw [hest]; exact est_min _ _
  constructor
  · obtain ⟨s'', hrun, hfa, hgens⟩ :=
      cancelGeneration_queued gid uid s'
        { id := gid, userId := uid, contentItemId := ci.id, status := "queued",
          estimatedCredits := est, creditsUsed := 0, error := none }
        { acct0' with creditsRemaining := acct0'.creditsRemaining - est }
        hfind rfl hacct'
    refine ⟨s'', hrun, ?_⟩
    rw [hfa]
    show some (acct0'.creditsRemaining - est + est) = some acct0'.creditsRemaining
    exact congrArg some (by omega)
  · intro q m
    refine ⟨?_, rfl, by omega⟩
    have : (deadLetterExhausted q m s').creditAccounts = s'.creditAccounts := rfl
    rw [this, hacct']
    rfl

/-- Claim C3 counterexample: after a successful 1000-credit submission, routing
the exhausted message to the dead-letter queue leaves the balance at 0, not at
the pre-submission 1000 the claim requires. -/
theorem deadLetter_keeps_deficit_cex :
    (createGenerationRequest true 1 2 7 req0 state0).1 = .accepted 2 1 1000 ∧
    findAccount state0.creditAccounts 7 = some acct0 ∧
    acct0.creditsRemaining = 1000 ∧
    (findAccount (deadLetterExhausted "content-generation"
        { generationId := 2, userId := 7, contentItemId := 1 }
        (createGenerationRequest true 1 2 7 req0 state0).2).creditAccounts 7).map
      CreditAccount.creditsRemaining = some 0 ∧
    (0 : Int) ≠ 1000 := by
  refine ⟨by rw [run0], by decide, by decide, ?_, by decide⟩
  rw [run0]
  decide

/-- Claim C3 witness: the amended theorem instantiated at the concrete
submission from `state0`. -/
theorem terminal_states_refund_behaviour_witness :
    (∃ s'', cancelGeneration 2 7 state0AfterSubmit = (.ok 2 1000, s'') ∧
      (findAccount s''.creditAccounts 7).map CreditAccount.creditsRemaining =
        some acct0.creditsRemaining) ∧
    (∀ (q : String) (m : QueueMessage),
      (findAccount (deadLetterExhausted q m state0AfterSubmit).creditAccounts 7).map
        CreditAccount.creditsRemaining = some (acct0.creditsRemaining - 1000) ∧
      (deadLetterExhausted q m state0AfterSubmit).generations =
        state0AfterSubmit.generations ∧
      acct0.creditsRemaining - 1000 ≠ acct0.creditsRemaining) :=
  terminal_states_refund_behaviour true 1 2 7 req0 state0 state0AfterSubmit 2 1 1000
    acct0 run0 (by decide) (by decide)

/-- Claim C4 (amended): the retry decision of `consume` is independent of the
error classification: every error — permanent or transient — is retried with the
exponential-backoff delay while the message's retry count is below `maxRetries`
(default 3), and dead-lettered exactly from `maxRetries` on. -/
theorem retryDecision_ignores_error_kind :
    (∀ (e e' : ErrorKind) (r : Nat) (mr rd : Option Nat),
      consumeRetryDecision e r mr rd = consumeRetryDecision e' r mr rd) ∧
    (∀ (e : ErrorKind) (r : Nat) (mr rd : Option Nat), r < jsOrNat mr 3 →
      consumeRetryDecision e r mr rd = .retry (jsOrNat rd 5000 * 2 ^ r)) ∧
    (∀ (e : ErrorKind) (r : Nat) (mr rd : Option Nat), jsOrNat mr 3 ≤ r →
      consumeRetryDecision e r mr rd = .deadLetter) := by
  refine ⟨fun e e' r mr rd => rfl, fun e r mr rd h => ?_, fun e r mr rd h => ?_⟩
  · simp [consumeRetryDecision, h]
  · simp [consumeRetryDecision, Nat.not_lt.mpr h]

/-- Claim C4 counterexample: a permanent error on first delivery is retried with
a 5s delay instead of being dead-lettered immediately. -/
theorem permanentError_retried_cex :
    consumeRetryDecision .permanent 0 none none = .retry 5000 ∧
    RetryDecision.retry 5000 ≠ RetryDecision.deadLetter := by decide

/-- Claim C4 witness: the amended theorem applied to a permanent error with
retry count 1 under default options. -/
theorem retryDecision_ignores_error_kind_witness :
    consumeRetryDecision .permanent 1 none none = .retry 10000 :=
  (retryDecision_ignores_error_kind.2.1 .permanent 1 none none (by decide)).trans
    (by decide)

/-- Claim C5 (amended): writing attempt = retryCount + 1 for the number of the
processing attempt, transient failures at attempts 1..3 (default maxRetries 3,
base 5s) are retried with delay 5000 * 2 ^ (attempt - 1) ms — no 30s cap is
applied, though all default delays stay below it — and the delays are strictly
increasing; the decision becomes DeadLetter only at attempt 4, i.e. the code
performs maxRetries retries after the first attempt rather than treating
maxAttempts as the total attempt budget. -/
theorem transientRetry_schedule :
    (∀ a : Nat, 1 ≤ a → a ≤ 3 →
      consumeRetryDecision .transient (a - 1) none none = .retry (5000 * 2 ^ (a - 1))) ∧
    (∀ a b : Nat, 1 ≤ a → a < b → b ≤ 3 →
      5000 * 2 ^ (a - 1) < 5000 * 2 ^ (b - 1)) ∧
    consumeRetryDecision .transient 3 none none = .deadLetter := by
  refine ⟨?_, ?_, by decide⟩
  · intro a h1 h2; interval_cases a <;> decide
  · intro a b h1 h2 h3
    have ha : a ≤ 2 := by omega
    interval_cases a <;> interval_cases b <;> decide

/-- Claim C5 counterexample: at attempt maxAttempts = 3 (retry count 2) the
decision is Retry with a 20s delay, not DeadLetter as the claim requires. -/
theorem transient_attempt3_retried_cex :
    consumeRetryDecision .transient (3 - 1) none none = .retry 20000 ∧
    RetryDecision.retry 20000 ≠ RetryDecision.deadLetter := by decide

/-- Claim C5 witness: the amended schedule applied at attempt 1. -/
theorem transientRetry_schedule_witness :
    consumeRetryDecision .transient 0 none none = .retry 5000 :=
  (transientRetry_schedule.1 1 (by decide) (by decide)).trans (by decide)

/-- Claim C6: every accepted submission deducts exactly the estimated cost from
the owner's account: the balance afterwards equals the balance before minus
`estimateGenerationCost`. -/
theorem submit_deducts_estimated_cost (brokerUp : Bool) (fi fg uid : Nat)
    (req : GenRequest) (s s' : ServerState) (gid cid : Nat) (est : Int)
    (h : createGenerationRequest brokerUp fi fg uid req s = (.accepted gid cid est, s')) :
    est = estimateGenerationCost req.promptData (req.contentType.getD "blog") ∧
    ∃ acct, findAccount s.creditAccounts uid = some acct ∧
      findAccount s'.creditAccounts uid =
        some { acct with creditsRemaining := acct.creditsRemaining - est } := by
  obtain ⟨-, hest, acct, ci, hacct, -, -, -, hca, -⟩ :=
    createGenerationRequest_accepted brokerUp fi fg uid req s s' gid cid est h
  refine ⟨hest, acct, hacct, ?_⟩
  rw [hca]
  exact findAccount_update { acct with creditsRemaining := acct.creditsRemaining - est }
    hacct (@findAccount_userId s.creditAccounts uid acct hacct)

/-- Claim C6 witness: the theorem at the concrete accepted run from `state0`. -/
theorem submit_deducts_estimated_cost_witness :
    (1000 : Int) = estimateGenerationCost req0.promptData (req0.contentType.getD "blog") ∧
    ∃ acct, findAccount state0.creditAccounts 7 = some acct ∧
      findAccount state0AfterSubmit.creditAccounts 7 =
        some { acct with creditsRemaining := acct.creditsRemaining - 1000 } :=
  submit_deducts_estimated_cost true 1 2 7 req0 state0 state0AfterSubmit 2 1 1000 run0

/-- Claim C7: a submission whose estimated cost exceeds the remaining balance is
rejected with the 402 InsufficientCredits response carrying the required and
available amounts, and the server state is returned unchanged: no content item,
no generation, no reservation, balance untouched. -/
theorem insufficient_credits_rejects_without_writes (brokerUp : Bool) (fi fg uid : Nat)
    (req : GenRequest) (s : ServerState) (acct : CreditAccount)
    (hvalid : req.valid = true)
    (hitem : ((!req.isNewContent && req.contentItemId.isSome) &&
      (foundContentItem s uid req).isNone) = false)
    (htpl : (req.templateId.isSome && (foundTemplate s uid req).isNone) = false)
    (hacct : findAccount s.creditAccounts uid = some acct)
    (hlow : acct.creditsRemaining <
      estimateGenerationCost req.promptData (req.contentType.getD "blog")) :
    createGenerationRequest brokerUp fi fg uid req s =
      (.paymentRequired
        (estimateGenerationCost req.promptData (req.contentType.getD "blog"))
        acct.creditsRemaining, s) := by
  simp [createGenerationRequest, hvalid, hitem, htpl, hacct, hlow]

/-- Claim C7 witness: the theorem at a concrete 50-credit account and a request
estimated at 1000. -/
theorem insufficient_credits_rejects_without_writes_witness :
    createGenerationRequest true 1 2 7 req0 stateLow =
      (.paymentRequired
        (estimateGenerationCost req0.promptData (req0.contentType.getD "blog"))
        acctLow.creditsRemaining, stateLow) :=
  insufficient_credits_rejects_without_writes true 1 2 7 req0 stateLow acctLow
    rfl (by decide) (by decide) (by decide) (by simp [est_req0, acctLow])

/-- Claim C8: any sequential run of ledger operations keeps `creditsRemaining`
nonnegative when the amounts are nonnegative: reservations and deductions are
applied only when the balance covers the amount (otherwise they leave the
balance unchanged), and refunds and additions only increase the balance. -/
theorem ledger_never_negative :
    (∀ (b : Int) (ops : List LedgerOp), 0 ≤ b → (∀ op ∈ ops, 0 ≤ op.amount) →
      0 ≤ runLedger b ops) ∧
    (∀ (b a : Int), b < a →
      applyLedgerOp b (.reserve a) = b ∧ applyLedgerOp b (.deduct a) = b) ∧
    (∀ (b a : Int), 0 ≤ a →
      b ≤ applyLedgerOp b (.refund a) ∧ b ≤ applyLedgerOp b (.add a)) := by
  refine ⟨?_, ?_, ?_⟩
  · intro b ops hb hops
    induction ops generalizing b with
    | nil => simpa [runLedger] using hb
    | cons op rest ih =>
      have h0 : 0 ≤ applyLedgerOp b op := by
        have ha := hops op (by simp)
        cases op <;> simp [applyLedgerOp, LedgerOp.amount] at ha ⊢ <;> omega
      exact ih _ h0 (fun o ho => hops o (by simp [ho]))
  · intro b a h
    constructor <;> simp [applyLedgerOp, h]
  · intro b a h
    constructor <;> simp [applyLedgerOp] <;> omega

/-- Claim C8 witness: the invariant applied to a concrete 1000-credit run. -/
theorem ledger_never_negative_witness :
    0 ≤ runLedger 1000 [.reserve 300, .deduct 100, .refund 300, .add 50] :=
  ledger_never_negative.1 1000 _ (by decide) (by decide)

/-- Claim C9: the cost estimator agrees everywhere with the claim's formula —
the ceiling of the requested word count (default 1000) times the content-type
multiplier, the model multiplier (unknown keys mapping to 1) and the 1.2 SEO
multiplier, floored at the minimum of 100 — and its result is always an integer
of at least 100. -/
theorem estimator_matches_spec :
    ∀ (pd : PromptData) (ct : String),
      estimateGenerationCost pd ct = estimateGenerationCostSpec pd ct ∧
      100 ≤ estimateGenerationCost pd ct := by
  intro pd ct
  refine ⟨?_, le_max_right _ _⟩
  unfold estimateGenerationCost estimateGenerationCostSpec
  rw [typeMultiplier_eq_spec, modelMultiplier_eq_spec]
  have hseo : (if pd.seoOptimize then (6:ℚ)/5 else 1) =
      (if pd.seoOptimize then (12:ℚ)/10 else 1) := by norm_num
  rw [hseo, max_comm]

/-- Claim C10: `enqueue` on any queue outside the three declared definitions
fails with the queue-not-defined error and publishes nothing, and the
`content-scheduling` queue used by the scheduling endpoint is not among the
declared queues, so every attempt to queue a scheduling job fails. -/
theorem undefinedQueue_enqueue_throws
    (q : String) (hq : q ∉ queueDefinitions)
    (brokerUp : Bool) (b : BrokerState) (message : QueueMessage)
    (hconn : b.connected = true) (hsub : ∀ x ∈ b.queues, x ∈ queueDefinitions) :
    enqueue brokerUp b q message = .error (.queueNotDefined q) ∧
    schedulingQueueName ∉ queueDefinitions := by
  refine ⟨?_, by decide⟩
  have hens : ensureConnection brokerUp b = .ok b := by
    simp [ensureConnection, hconn]
  have hmem : q ∉ b.queues := fun hmemq => hq (hsub q hmemq)
  simp [enqueue, hens, hmem]

/-- Claim C10 witness: `enqueue` of a scheduling job on a connected broker fails
with the queue-not-defined error. -/
theorem undefinedQueue_enqueue_throws_witness :
    enqueue true connectedBroker schedulingQueueName msg0 =
      .error (.queueNotDefined schedulingQueueName) ∧
    schedulingQueueName ∉ queueDefinitions :=
  undefinedQueue_enqueue_throws schedulingQueueName (by decide) true connectedBroker
    msg0 rfl (by decide)
